import Mathlib

/-!
# ViewManager: camera / view controller of the 3D scene viewer

A shallow embedding of `7-1_FinalProjectMilestones/Source/ViewManager.cpp`.

* C++ `float`/`double` values are exact rationals (`ℚ`); the literals are read
  as the decimal numbers written in the source.
* The file-scope globals and the members of the `ViewManager` object are the
  fields of one record, `ViewState`, passed explicitly.
* The `Camera` class, `glm::normalize` and `glm::radians` are defined outside
  ViewManager.cpp; the camera operations and the two glm functions are taken
  as parameters (`CameraLib`), so every theorem holds for every implementation
  of them.
* The key states `glfwGetKey` reports and the clock reading `glfwGetTime`
  returns are inputs of the methods that poll them.
* A null `m_pShaderManager` is `none`; calling a method through it is the
  fault `Fault.nullPointerDereference`.
-/

set_option linter.dupNamespace false

namespace ViewManager

/-! ## Data model -/

/-- A `glm::vec3`. -/
structure Vec3 where
  x : ℚ
  y : ℚ
  z : ℚ
deriving DecidableEq

/-- The direction argument of `Camera::ProcessKeyboard`. -/
inductive Camera_Movement where
  | FORWARD
  | BACKWARD
  | LEFT
  | RIGHT
  | UP
  | DOWN
deriving DecidableEq

/-- Modelled from the spec: the `Camera` class (camera.h) is not among the
sources; its fields are the ones of the camera data model (position, front,
up, right, yaw, pitch, zoom, movement speed, mouse sensitivity).  The view
manager itself reads and writes `Position`, `Front`, `Up` and `Zoom` only. -/
structure Camera where
  Position : Vec3
  Front : Vec3
  Up : Vec3
  Right : Vec3
  Yaw : ℚ
  Pitch : ℚ
  Zoom : ℚ
  MovementSpeed : ℚ
  MouseSensitivity : ℚ
deriving DecidableEq

/-- The operations the view manager calls but does not define: the two
mutating methods of `Camera`, and `glm::normalize` / `glm::radians`. -/
structure CameraLib where
  ProcessKeyboard : Camera → Camera_Movement → ℚ → Camera
  ProcessMouseMovement : Camera → ℚ → ℚ → Camera
  normalize : Vec3 → Vec3
  radians : ℚ → ℚ

/-- One call made on the camera object, with its arguments. -/
inductive CameraCall where
  | ProcessKeyboard (direction : Camera_Movement) (velocity : ℚ)
  | ProcessMouseMovement (xOffset yOffset : ℚ)
deriving DecidableEq

/-- The arguments of the glm call that builds the projection matrix:
`glm::perspective(fovy, aspect, near, far)` or
`glm::ortho(left, right, bottom, top, near, far)`. -/
inductive Projection where
  | perspective (fovy aspect near far : ℚ)
  | ortho (left right bottom top near far : ℚ)
deriving DecidableEq

/-- A value handed to the shader manager. -/
inductive UniformValue where
  | view (camera : Camera)
  | projection (p : Projection)
  | vec3 (v : Vec3)
deriving DecidableEq

/-- The calls received by a shader manager, oldest first: the uniform name and
the value of each `setMat4Value` / `setVec3Value`. -/
abbrev ShaderManager := List (String × UniformValue)

/-- What `glfwGetKey(m_pWindow, KEY) == GLFW_PRESS` answers for each key the
view manager polls. -/
structure Keys where
  GLFW_KEY_ESCAPE : Bool
  GLFW_KEY_W : Bool
  GLFW_KEY_S : Bool
  GLFW_KEY_A : Bool
  GLFW_KEY_D : Bool
  GLFW_KEY_Q : Bool
  GLFW_KEY_E : Bool
  GLFW_KEY_LEFT : Bool
  GLFW_KEY_RIGHT : Bool
  GLFW_KEY_DOWN : Bool
  GLFW_KEY_UP : Bool
  GLFW_KEY_T : Bool
  GLFW_KEY_G : Bool
  GLFW_KEY_1 : Bool
  GLFW_KEY_2 : Bool
  GLFW_KEY_3 : Bool
deriving DecidableEq

/-- No key is down. -/
def Keys.none : Keys :=
  { GLFW_KEY_ESCAPE := false, GLFW_KEY_W := false, GLFW_KEY_S := false,
    GLFW_KEY_A := false, GLFW_KEY_D := false, GLFW_KEY_Q := false,
    GLFW_KEY_E := false, GLFW_KEY_LEFT := false, GLFW_KEY_RIGHT := false,
    GLFW_KEY_DOWN := false, GLFW_KEY_UP := false, GLFW_KEY_T := false,
    GLFW_KEY_G := false, GLFW_KEY_1 := false, GLFW_KEY_2 := false,
    GLFW_KEY_3 := false }

/-- The globals of ViewManager.cpp, the members of the `ViewManager` object
and the observable effects of its methods.

* `lastOrtho` is the function-local `static bool lastOrtho` of
  `ProcessKeyboardEvents`: `none` until the declaration is first executed.
* `cameraCalls` records the calls made on `g_pCamera`, oldest first.
* `cout` holds the strings written to `std::cout`, oldest first.
* `windowShouldClose`, `cursorPosCallbackSet`, `scrollCallbackSet` are the
  effects of `glfwSetWindowShouldClose`, `glfwSetCursorPosCallback` and
  `glfwSetScrollCallback` on the window. -/
structure ViewState where
  gSpeedScale : ℚ
  gLookSpeed : ℚ
  g_pCamera : Camera
  gLastX : ℚ
  gLastY : ℚ
  gFirstMouse : Bool
  gDeltaTime : ℚ
  gLastFrame : ℚ
  bOrthographicProjection : Bool
  lastOrtho : Option Bool
  m_pShaderManager : Option ShaderManager
  cameraCalls : List CameraCall
  cout : List String
  windowShouldClose : Bool
  cursorPosCallbackSet : Bool
  scrollCallbackSet : Bool

/-- Failure of a method. -/
inductive Fault where
  | nullPointerDereference
deriving DecidableEq

def WINDOW_WIDTH : Int := 1000

def WINDOW_HEIGHT : Int := 800

/-! ## Operations -/

/-- The state after static initialisation of the globals and the constructor
`ViewManager::ViewManager(pShaderManager)`; `newCamera` is the object built by
`new Camera()`, whose fields the constructor then overrides. -/
def ViewManager (newCamera : Camera) (pShaderManager : Option ShaderManager) : ViewState :=
  { gSpeedScale := 5.0
    gLookSpeed := 500.0
    g_pCamera :=
      { newCamera with
        Position := ⟨0.0, 12.0, 25.0⟩
        Front := ⟨0.0, -0.2, -2.0⟩
        Up := ⟨0.0, 1.0, 0.0⟩
        Zoom := 80 }
    gLastX := (WINDOW_WIDTH : ℚ) / 2.0
    gLastY := (WINDOW_HEIGHT : ℚ) / 2.0
    gFirstMouse := true
    gDeltaTime := 0.0
    gLastFrame := 0.0
    bOrthographicProjection := false
    lastOrtho := none
    m_pShaderManager := pShaderManager
    cameraCalls := []
    cout := []
    windowShouldClose := false
    cursorPosCallbackSet := false
    scrollCallbackSet := false }

/-- The call `g_pCamera->ProcessKeyboard(direction, velocity)`. -/
def callProcessKeyboard (lib : CameraLib) (s : ViewState) (direction : Camera_Movement)
    (velocity : ℚ) : ViewState :=
  { s with
    g_pCamera := lib.ProcessKeyboard s.g_pCamera direction velocity
    cameraCalls := s.cameraCalls ++ [CameraCall.ProcessKeyboard direction velocity] }

/-- The call `g_pCamera->ProcessMouseMovement(xOffset, yOffset)`. -/
def callProcessMouseMovement (lib : CameraLib) (s : ViewState) (xOffset yOffset : ℚ) :
    ViewState :=
  { s with
    g_pCamera := lib.ProcessMouseMovement s.g_pCamera xOffset yOffset
    cameraCalls := s.cameraCalls ++ [CameraCall.ProcessMouseMovement xOffset yOffset] }

/-- The method `ViewManager::Mouse_Position_Callback(window, xMousePos, yMousePos)`. -/
def Mouse_Position_Callback (lib : CameraLib) (s : ViewState) (xMousePos yMousePos : ℚ) :
    ViewState :=
  let s : ViewState :=
    if s.gFirstMouse then
      { s with gLastX := xMousePos, gLastY := yMousePos, gFirstMouse := false }
    else s
  let xOffset : ℚ := xMousePos - s.gLastX
  let yOffset : ℚ := s.gLastY - yMousePos
  let s : ViewState := { s with gLastX := xMousePos, gLastY := yMousePos }
  let s : ViewState := callProcessMouseMovement lib s xOffset yOffset
  { s with cursorPosCallbackSet := true, scrollCallbackSet := true }

/-- The method `ViewManager::Mouse_Scroll_Callback(window, xOffset, yOffset)`. -/
def Mouse_Scroll_Callback (s : ViewState) (yOffset : ℚ) : ViewState :=
  let STEP : ℚ := 0.50
  let MIN_SPEED : ℚ := 0.05
  let MAX_SPEED : ℚ := 20.0
  let s : ViewState :=
    if yOffset > 0.0 then { s with gSpeedScale := s.gSpeedScale + STEP * yOffset }
    else if yOffset < 0.0 then { s with gSpeedScale := s.gSpeedScale + STEP * yOffset }
    else s
  let s : ViewState := if s.gSpeedScale < MIN_SPEED then { s with gSpeedScale := MIN_SPEED } else s
  let s : ViewState := if s.gSpeedScale > MAX_SPEED then { s with gSpeedScale := MAX_SPEED } else s
  s

/-- The text printed when the projection mode changes to `ortho`. -/
def modeMessage (ortho : Bool) : String :=
  if ortho then "View Set to Orthographic (2D)\n" else "View Set to Perspective (3D)\n"

/-- Lines 193-197 of `ProcessKeyboardEvents`: the escape key asks the window to
close. -/
def pollEscapeKey (s : ViewState) (keys : Keys) : ViewState :=
  if keys.GLFW_KEY_ESCAPE then { s with windowShouldClose := true } else s

/-- Lines 199-227 of `ProcessKeyboardEvents`: the movement keys W, S, A, D, Q, E. -/
def pollMovementKeys (lib : CameraLib) (s : ViewState) (keys : Keys) : ViewState :=
  let s : ViewState :=
    if keys.GLFW_KEY_W then
      callProcessKeyboard lib s Camera_Movement.FORWARD (s.gDeltaTime * s.gSpeedScale)
    else s
  let s : ViewState :=
    if keys.GLFW_KEY_S then
      callProcessKeyboard lib s Camera_Movement.BACKWARD (s.gDeltaTime * s.gSpeedScale)
    else s
  let s : ViewState :=
    if keys.GLFW_KEY_A then
      callProcessKeyboard lib s Camera_Movement.LEFT (s.gDeltaTime * s.gSpeedScale)
    else s
  let s : ViewState :=
    if keys.GLFW_KEY_D then
      callProcessKeyboard lib s Camera_Movement.RIGHT (s.gDeltaTime * s.gSpeedScale)
    else s
  let s : ViewState :=
    if keys.GLFW_KEY_Q then
      callProcessKeyboard lib s Camera_Movement.DOWN (s.gDeltaTime * s.gSpeedScale)
    else s
  let s : ViewState :=
    if keys.GLFW_KEY_E then
      callProcessKeyboard lib s Camera_Movement.UP (s.gDeltaTime * s.gSpeedScale)
    else s
  s

/-- Lines 229-240 of `ProcessKeyboardEvents`: the arrow keys turn the camera. -/
def pollLookKeys (lib : CameraLib) (s : ViewState) (keys : Keys) : ViewState :=
  let dx : ℚ := 0.0
  let dy : ℚ := 0.0
  let dx : ℚ := if keys.GLFW_KEY_LEFT then dx - s.gLookSpeed * s.gDeltaTime * s.gSpeedScale else dx
  let dx : ℚ := if keys.GLFW_KEY_RIGHT then dx + s.gLookSpeed * s.gDeltaTime * s.gSpeedScale else dx
  let dy : ℚ := if keys.GLFW_KEY_DOWN then dy + s.gLookSpeed * s.gDeltaTime * s.gSpeedScale else dy
  let dy : ℚ := if keys.GLFW_KEY_UP then dy - s.gLookSpeed * s.gDeltaTime * s.gSpeedScale else dy
  if dx ≠ 0.0 ∨ dy ≠ 0.0 then callProcessMouseMovement lib s dx dy else s

/-- Lines 242-257 of `ProcessKeyboardEvents`: the projection keys T and G, and
the message printed when the mode differs from `lastOrtho`.  The static
`lastOrtho` takes the value of `bOrthographicProjection` the first time its
declaration is executed. -/
def pollProjectionKeys (s : ViewState) (keys : Keys) : ViewState :=
  let tDown : Bool := keys.GLFW_KEY_T
  let gDown : Bool := keys.GLFW_KEY_G
  let s : ViewState :=
    match s.lastOrtho with
    | some _ => s
    | Option.none => { s with lastOrtho := some s.bOrthographicProjection }
  let s : ViewState := if tDown then { s with bOrthographicProjection := true } else s
  let s : ViewState := if gDown then { s with bOrthographicProjection := false } else s
  if some s.bOrthographicProjection ≠ s.lastOrtho then
    { s with
      cout := s.cout ++ [modeMessage s.bOrthographicProjection]
      lastOrtho := some s.bOrthographicProjection }
  else s

/-- Lines 259-276 of `ProcessKeyboardEvents`: the preset view keys 1, 2, 3. -/
def pollPresetKeys (lib : CameraLib) (s : ViewState) (keys : Keys) : ViewState :=
  let s : ViewState :=
    if keys.GLFW_KEY_1 then
      { s with
        g_pCamera :=
          { s.g_pCamera with
            Position := ⟨0.0, 12.0, 25.0⟩
            Front := lib.normalize ⟨0.0, -0.2, -1.0⟩ } }
    else s
  let s : ViewState :=
    if keys.GLFW_KEY_2 then
      { s with
        g_pCamera :=
          { s.g_pCamera with
            Position := ⟨0.0, 22.0, 12.0⟩
            Front := lib.normalize ⟨0.0, -0.1, -1.0⟩ } }
    else s
  let s : ViewState :=
    if keys.GLFW_KEY_3 then
      { s with
        g_pCamera :=
          { s.g_pCamera with
            Position := ⟨15.0, 21.0, 25.0⟩
            Front := lib.normalize ⟨-0.3, -0.4, -1.0⟩
            Up := ⟨0.0, 1.0, 0.0⟩ } }
    else s
  s

/-- The method `ViewManager::ProcessKeyboardEvents()`, on the key states `keys`
that `glfwGetKey` reports during the call: its five blocks in source order. -/
def ProcessKeyboardEvents (lib : CameraLib) (s : ViewState) (keys : Keys) : ViewState :=
  let s : ViewState := pollEscapeKey s keys
  let s : ViewState := pollMovementKeys lib s keys
  let s : ViewState := pollLookKeys lib s keys
  let s : ViewState := pollProjectionKeys s keys
  let s : ViewState := pollPresetKeys lib s keys
  s

/-- The call `m_pShaderManager->setMat4Value(name, value)` or
`m_pShaderManager->setVec3Value(name, value)`: a fault through a null handle. -/
def setValue (s : ViewState) (name : String) (value : UniformValue) : Except Fault ViewState :=
  match s.m_pShaderManager with
  | Option.none => Except.error Fault.nullPointerDereference
  | some calls => Except.ok { s with m_pShaderManager := some (calls ++ [(name, value)]) }

/-- The projection `ViewManager::PrepareSceneView()` builds from the projection
mode and the camera it finds after the keyboard events are processed. -/
def sceneProjection (lib : CameraLib) (s : ViewState) : Projection :=
  let aspect : ℚ := (WINDOW_WIDTH : ℚ) / (WINDOW_HEIGHT : ℚ)
  if !s.bOrthographicProjection then
    Projection.perspective (lib.radians s.g_pCamera.Zoom) aspect 0.1 100.0
  else
    let halfHeight : ℚ := 25.0
    let halfWidth : ℚ := halfHeight * aspect
    Projection.ortho (-halfWidth) halfWidth (-halfHeight) halfHeight 1.0 100.0

/-- Lines 324-336 of `PrepareSceneView`: the three values are handed to the
shader manager inside the null check, and once more after it. -/
def publishSceneView (s : ViewState) (view projection : UniformValue) :
    Except Fault ViewState := do
  let s ←
    match s.m_pShaderManager with
    | some _ => do
      let s ← setValue s "view" view
      let s ← setValue s "projection" projection
      setValue s "viewPosition" (UniformValue.vec3 s.g_pCamera.Position)
    | Option.none => pure s
  let s ← setValue s "view" view
  let s ← setValue s "projection" projection
  setValue s "viewPosition" (UniformValue.vec3 s.g_pCamera.Position)

/-- The method `ViewManager::PrepareSceneView()`, where `glfwGetTime` is the
clock reading and `keys` the key states of this frame. -/
def PrepareSceneView (lib : CameraLib) (s : ViewState) (glfwGetTime : ℚ) (keys : Keys) :
    Except Fault ViewState :=
  let currentFrame : ℚ := glfwGetTime
  let s : ViewState := { s with gDeltaTime := currentFrame - s.gLastFrame }
  let s : ViewState := { s with gLastFrame := currentFrame }
  let s : ViewState := ProcessKeyboardEvents lib s keys
  let view : UniformValue := UniformValue.view s.g_pCamera
  let projection : UniformValue := UniformValue.projection (sceneProjection lib s)
  publishSceneView s view projection

/-- Spec-side definition: `clamp x lo hi` is `x` restricted to the interval
`[lo, hi]`. -/
def clamp (x lo hi : ℚ) : ℚ :=
  if x < lo then lo else if hi < x then hi else x

/-- The state after the scroll events with deltas `ds`, in order. -/
def scrollRun (s : ViewState) (ds : List ℚ) : ViewState :=
  ds.foldl Mouse_Scroll_Callback s

/-- The state after the calls of `ProcessKeyboardEvents` with the key states
`ks`, in order. -/
def keyboardRun (lib : CameraLib) (s : ViewState) (ks : List Keys) : ViewState :=
  ks.foldl (ProcessKeyboardEvents lib) s

/-- The state after the mouse-move events at the cursor positions `ps`, in
order. -/
def mouseRun (lib : CameraLib) (s : ViewState) (ps : List (ℚ × ℚ)) : ViewState :=
  ps.foldl (fun s p => Mouse_Position_Callback lib s p.1 p.2) s

/-- The x offsets of the `ProcessMouseMovement` calls in `calls`, in order. -/
def xOffsets : List CameraCall → List ℚ
  | [] => []
  | CameraCall.ProcessMouseMovement xOffset _ :: calls => xOffset :: xOffsets calls
  | CameraCall.ProcessKeyboard _ _ :: calls => xOffsets calls

/-- The y offsets of the `ProcessMouseMovement` calls in `calls`, in order. -/
def yOffsets : List CameraCall → List ℚ
  | [] => []
  | CameraCall.ProcessMouseMovement _ yOffset :: calls => yOffset :: yOffsets calls
  | CameraCall.ProcessKeyboard _ _ :: calls => yOffsets calls

/-- Spec-side definition: the squared length of a vector, `dot(v, v)`; a unit
vector is one whose squared length is `1`. -/
def lengthSquared (v : Vec3) : ℚ :=
  v.x * v.x + v.y * v.y + v.z * v.z

/-- A camera library for evaluating the view manager on concrete inputs: its
operations leave the camera and the vector as they are. -/
def CameraLib.still : CameraLib :=
  { ProcessKeyboard := fun camera _ _ => camera
    ProcessMouseMovement := fun camera _ _ => camera
    normalize := fun v => v
    radians := fun degrees => degrees }

/-- A camera value for evaluating the view manager on concrete inputs. -/
def Camera.zero : Camera :=
  { Position := ⟨0, 0, 0⟩, Front := ⟨0, 0, 0⟩, Up := ⟨0, 0, 0⟩, Right := ⟨0, 0, 0⟩,
    Yaw := 0, Pitch := 0, Zoom := 0, MovementSpeed := 0, MouseSensitivity := 0 }

/-- The states the program can be in: the state the constructor leaves, and
every state a callback or a completed method call leads to from one of them. -/
inductive Reachable (lib : CameraLib) (newCamera : Camera)
    (pShaderManager : Option ShaderManager) : ViewState → Prop where
  | start : Reachable lib newCamera pShaderManager (ViewManager newCamera pShaderManager)
  | mouseMove {s : ViewState} (x y : ℚ) :
      Reachable lib newCamera pShaderManager s →
      Reachable lib newCamera pShaderManager (Mouse_Position_Callback lib s x y)
  | scroll {s : ViewState} (yOffset : ℚ) :
      Reachable lib newCamera pShaderManager s →
      Reachable lib newCamera pShaderManager (Mouse_Scroll_Callback s yOffset)
  | keyboard {s : ViewState} (keys : Keys) :
      Reachable lib newCamera pShaderManager s →
      Reachable lib newCamera pShaderManager (ProcessKeyboardEvents lib s keys)
  | frame {s s' : ViewState} (glfwGetTime : ℚ) (keys : Keys) :
      Reachable lib newCamera pShaderManager s →
      PrepareSceneView lib s glfwGetTime keys = Except.ok s' →
      Reachable lib newCamera pShaderManager s'

/-! ## Which fields each block of `ProcessKeyboardEvents` touches -/

theorem pollEscapeKey_frame (s : ViewState) (keys : Keys) :
    pollEscapeKey s keys
      = { s with windowShouldClose := (pollEscapeKey s keys).windowShouldClose } := by
  simp only [pollEscapeKey]
  split_ifs <;> rfl

theorem pollMovementKeys_frame (lib : CameraLib) (s : ViewState) (keys : Keys) :
    pollMovementKeys lib s keys
      = { s with
          g_pCamera := (pollMovementKeys lib s keys).g_pCamera
          cameraCalls := (pollMovementKeys lib s keys).cameraCalls } := by
  simp only [pollMovementKeys]
  split_ifs <;> rfl

theorem pollLookKeys_frame (lib : CameraLib) (s : ViewState) (keys : Keys) :
    pollLookKeys lib s keys
      = { s with
          g_pCamera := (pollLookKeys lib s keys).g_pCamera
          cameraCalls := (pollLookKeys lib s keys).cameraCalls } := by
  unfold pollLookKeys
  simp only []
  split_ifs <;> rfl

theorem pollProjectionKeys_frame (s : ViewState) (keys : Keys) :
    pollProjectionKeys s keys
      = { s with
          bOrthographicProjection := (pollProjectionKeys s keys).bOrthographicProjection
          lastOrtho := (pollProjectionKeys s keys).lastOrtho
          cout := (pollProjectionKeys s keys).cout } := by
  unfold pollProjectionKeys
  cases s.lastOrtho <;> simp only [] <;> split_ifs <;> rfl

theorem pollPresetKeys_frame (lib : CameraLib) (s : ViewState) (keys : Keys) :
    pollPresetKeys lib s keys
      = { s with g_pCamera := (pollPresetKeys lib s keys).g_pCamera } := by
  simp only [pollPresetKeys]
  split_ifs <;> rfl

/-- A field that no block of `ProcessKeyboardEvents` changes is unchanged by
the method. -/
theorem ProcessKeyboardEvents_untouched {α : Type} (lib : CameraLib) (f : ViewState → α)
    (h1 : ∀ s keys, f (pollEscapeKey s keys) = f s)
    (h2 : ∀ s keys, f (pollMovementKeys lib s keys) = f s)
    (h3 : ∀ s keys, f (pollLookKeys lib s keys) = f s)
    (h4 : ∀ s keys, f (pollProjectionKeys s keys) = f s)
    (h5 : ∀ s keys, f (pollPresetKeys lib s keys) = f s)
    (s : ViewState) (keys : Keys) :
    f (ProcessKeyboardEvents lib s keys) = f s := by
  unfold ProcessKeyboardEvents
  simp only [h5, h4, h3, h2, h1]

theorem ProcessKeyboardEvents_gSpeedScale (lib : CameraLib) (s : ViewState) (keys : Keys) :
    (ProcessKeyboardEvents lib s keys).gSpeedScale = s.gSpeedScale :=
  ProcessKeyboardEvents_untouched lib (fun s => s.gSpeedScale)
    (fun s keys => by rw [pollEscapeKey_frame])
    (fun s keys => by rw [pollMovementKeys_frame])
    (fun s keys => by rw [pollLookKeys_frame])
    (fun s keys => by rw [pollProjectionKeys_frame])
    (fun s keys => by rw [pollPresetKeys_frame]) s keys

theorem ProcessKeyboardEvents_m_pShaderManager (lib : CameraLib) (s : ViewState)
    (keys : Keys) :
    (ProcessKeyboardEvents lib s keys).m_pShaderManager = s.m_pShaderManager :=
  ProcessKeyboardEvents_untouched lib (fun s => s.m_pShaderManager)
    (fun s keys => by rw [pollEscapeKey_frame])
    (fun s keys => by rw [pollMovementKeys_frame])
    (fun s keys => by rw [pollLookKeys_frame])
    (fun s keys => by rw [pollProjectionKeys_frame])
    (fun s keys => by rw [pollPresetKeys_frame]) s keys

theorem ProcessKeyboardEvents_gDeltaTime (lib : CameraLib) (s : ViewState) (keys : Keys) :
    (ProcessKeyboardEvents lib s keys).gDeltaTime = s.gDeltaTime :=
  ProcessKeyboardEvents_untouched lib (fun s => s.gDeltaTime)
    (fun s keys => by rw [pollEscapeKey_frame])
    (fun s keys => by rw [pollMovementKeys_frame])
    (fun s keys => by rw [pollLookKeys_frame])
    (fun s keys => by rw [pollProjectionKeys_frame])
    (fun s keys => by rw [pollPresetKeys_frame]) s keys

theorem ProcessKeyboardEvents_gLastFrame (lib : CameraLib) (s : ViewState) (keys : Keys) :
    (ProcessKeyboardEvents lib s keys).gLastFrame = s.gLastFrame :=
  ProcessKeyboardEvents_untouched lib (fun s => s.gLastFrame)
    (fun s keys => by rw [pollEscapeKey_frame])
    (fun s keys => by rw [pollMovementKeys_frame])
    (fun s keys => by rw [pollLookKeys_frame])
    (fun s keys => by rw [pollProjectionKeys_frame])
    (fun s keys => by rw [pollPresetKeys_frame]) s keys

/-- What the projection block does: G forces perspective, otherwise T forces
orthographic, otherwise the mode stays; `lastOrtho` then holds the mode; the
message of the new mode is printed when it differs from `lastOrtho` (from the
mode at entry while `lastOrtho` is not yet initialised). -/
theorem pollProjectionKeys_spec (s : ViewState) (keys : Keys) :
    (pollProjectionKeys s keys).bOrthographicProjection
        = (if keys.GLFW_KEY_G then false
           else if keys.GLFW_KEY_T then true else s.bOrthographicProjection) ∧
    (pollProjectionKeys s keys).lastOrtho
        = some (pollProjectionKeys s keys).bOrthographicProjection ∧
    (pollProjectionKeys s keys).cout
        = s.cout ++
          (if (pollProjectionKeys s keys).bOrthographicProjection
                = s.lastOrtho.getD s.bOrthographicProjection then []
           else [modeMessage (pollProjectionKeys s keys).bOrthographicProjection]) := by
  unfold pollProjectionKeys
  rcases hl : s.lastOrtho with _ | _ | _ <;>
  cases hG : keys.GLFW_KEY_G <;> cases hT : keys.GLFW_KEY_T <;>
  cases hb : s.bOrthographicProjection <;> simp [hl, hb]

/-- The projection block sees the mode fields of the state at entry. -/
theorem ProcessKeyboardEvents_mode_fields (lib : CameraLib) (s : ViewState) (keys : Keys) :
    (ProcessKeyboardEvents lib s keys).bOrthographicProjection
        = (pollProjectionKeys s keys).bOrthographicProjection ∧
    (ProcessKeyboardEvents lib s keys).lastOrtho = (pollProjectionKeys s keys).lastOrtho ∧
    (ProcessKeyboardEvents lib s keys).cout = (pollProjectionKeys s keys).cout := by
  have key : ∀ (a b : ViewState), a.bOrthographicProjection = b.bOrthographicProjection →
      a.lastOrtho = b.lastOrtho → a.cout = b.cout →
      (pollProjectionKeys a keys).bOrthographicProjection
          = (pollProjectionKeys b keys).bOrthographicProjection ∧
      (pollProjectionKeys a keys).lastOrtho = (pollProjectionKeys b keys).lastOrtho ∧
      (pollProjectionKeys a keys).cout = (pollProjectionKeys b keys).cout := by
    intro a b h1 h2 h3
    have ha := pollProjectionKeys_spec a keys
    have hb := pollProjectionKeys_spec b keys
    rw [h1, h2, h3] at ha
    refine ⟨ha.1.trans hb.1.symm, ?_, ?_⟩
    · rw [ha.2.1, hb.2.1, ha.1, hb.1]
    · rw [ha.2.2, hb.2.2, ha.1, hb.1]
  have h := key (pollLookKeys lib (pollMovementKeys lib (pollEscapeKey s keys) keys) keys) s
    (by rw [pollLookKeys_frame, pollMovementKeys_frame, pollEscapeKey_frame])
    (by rw [pollLookKeys_frame, pollMovementKeys_frame, pollEscapeKey_frame])
    (by rw [pollLookKeys_frame, pollMovementKeys_frame, pollEscapeKey_frame])
  unfold ProcessKeyboardEvents
  simp only []
  rw [pollPresetKeys_frame]
  exact h

/-- The mode after a call of `ProcessKeyboardEvents`: G forces perspective,
otherwise T forces orthographic, otherwise the mode stays. -/
theorem ProcessKeyboardEvents_mode (lib : CameraLib) (s : ViewState) (keys : Keys) :
    (ProcessKeyboardEvents lib s keys).bOrthographicProjection
      = if keys.GLFW_KEY_G then false
        else if keys.GLFW_KEY_T then true else s.bOrthographicProjection := by
  rw [(ProcessKeyboardEvents_mode_fields lib s keys).1]
  exact (pollProjectionKeys_spec s keys).1

/-- After a call of `ProcessKeyboardEvents`, `lastOrtho` holds the mode. -/
theorem ProcessKeyboardEvents_lastOrtho (lib : CameraLib) (s : ViewState) (keys : Keys) :
    (ProcessKeyboardEvents lib s keys).lastOrtho
      = some (ProcessKeyboardEvents lib s keys).bOrthographicProjection := by
  rw [(ProcessKeyboardEvents_mode_fields lib s keys).1,
    (ProcessKeyboardEvents_mode_fields lib s keys).2.1]
  exact (pollProjectionKeys_spec s keys).2.1

/-- What a call of `ProcessKeyboardEvents` prints: the message of the new mode
when it differs from `lastOrtho` (from the mode at entry while `lastOrtho` is
not yet initialised), and nothing otherwise. -/
theorem ProcessKeyboardEvents_cout (lib : CameraLib) (s : ViewState) (keys : Keys) :
    (ProcessKeyboardEvents lib s keys).cout
      = s.cout ++
        (if (ProcessKeyboardEvents lib s keys).bOrthographicProjection
              = s.lastOrtho.getD s.bOrthographicProjection then []
         else [modeMessage (ProcessKeyboardEvents lib s keys).bOrthographicProjection]) := by
  rw [(ProcessKeyboardEvents_mode_fields lib s keys).1,
    (ProcessKeyboardEvents_mode_fields lib s keys).2.2]
  exact (pollProjectionKeys_spec s keys).2.2

/-! ## `PrepareSceneView` -/

theorem publishSceneView_some (s : ViewState) (view projection : UniformValue)
    (calls : ShaderManager) (h : s.m_pShaderManager = some calls) :
    publishSceneView s view projection
      = Except.ok
          { s with
            m_pShaderManager :=
              some (calls ++
                [("view", view), ("projection", projection),
                 ("viewPosition", UniformValue.vec3 s.g_pCamera.Position),
                 ("view", view), ("projection", projection),
                 ("viewPosition", UniformValue.vec3 s.g_pCamera.Position)]) } := by
  cases s
  simp only at h
  subst h
  simp [publishSceneView, setValue, bind, Except.bind]

theorem publishSceneView_none (s : ViewState) (view projection : UniformValue)
    (h : s.m_pShaderManager = none) :
    publishSceneView s view projection = Except.error Fault.nullPointerDereference := by
  cases s
  simp only at h
  subst h
  rfl

/-- With a shader manager, `PrepareSceneView` completes: the state is the one
`ProcessKeyboardEvents` leaves after the timing update, and the shader manager
has received view, projection and camera position, twice. -/
theorem PrepareSceneView_some (lib : CameraLib) (s : ViewState) (glfwGetTime : ℚ)
    (keys : Keys) (calls : ShaderManager) (h : s.m_pShaderManager = some calls) :
    PrepareSceneView lib s glfwGetTime keys
      = Except.ok
          { ProcessKeyboardEvents lib
              { s with gDeltaTime := glfwGetTime - s.gLastFrame, gLastFrame := glfwGetTime }
              keys with
            m_pShaderManager :=
              let s1 := ProcessKeyboardEvents lib
                { s with gDeltaTime := glfwGetTime - s.gLastFrame, gLastFrame := glfwGetTime }
                keys
              some (calls ++
                [("view", UniformValue.view s1.g_pCamera),
                 ("projection", UniformValue.projection (sceneProjection lib s1)),
                 ("viewPosition", UniformValue.vec3 s1.g_pCamera.Position),
                 ("view", UniformValue.view s1.g_pCamera),
                 ("projection", UniformValue.projection (sceneProjection lib s1)),
                 ("viewPosition", UniformValue.vec3 s1.g_pCamera.Position)]) } := by
  have hm : (ProcessKeyboardEvents lib
      { s with gDeltaTime := glfwGetTime - s.gLastFrame, gLastFrame := glfwGetTime }
      keys).m_pShaderManager = some calls := by
    rw [ProcessKeyboardEvents_m_pShaderManager]
    exact h
  unfold PrepareSceneView
  exact publishSceneView_some _ _ _ calls hm

/-- Without a shader manager, `PrepareSceneView` faults. -/
theorem PrepareSceneView_none (lib : CameraLib) (s : ViewState) (glfwGetTime : ℚ)
    (keys : Keys) (h : s.m_pShaderManager = none) :
    PrepareSceneView lib s glfwGetTime keys = Except.error Fault.nullPointerDereference := by
  have hm : (ProcessKeyboardEvents lib
      { s with gDeltaTime := glfwGetTime - s.gLastFrame, gLastFrame := glfwGetTime }
      keys).m_pShaderManager = none := by
    rw [ProcessKeyboardEvents_m_pShaderManager]
    exact h
  unfold PrepareSceneView
  exact publishSceneView_none _ _ _ hm

/-! ## Scroll: speed scale -/

theorem scroll_speed (s : ViewState) (d : ℚ) :
    (Mouse_Scroll_Callback s d).gSpeedScale = clamp (s.gSpeedScale + 0.5 * d) 0.05 20.0 := by
  rcases lt_trichotomy d 0 with hd | hd | hd
  · have h1 : ¬ (d > 0.0) := by norm_num; linarith
    have h2 : d < 0.0 := by norm_num; linarith
    simp only [Mouse_Scroll_Callback, clamp, h1, h2, if_true, if_false]
    split_ifs <;> norm_num at * <;> first | rfl | linarith
  · have h1 : ¬ (d > 0.0) := by norm_num; linarith
    have h2 : ¬ (d < 0.0) := by norm_num; linarith
    simp only [Mouse_Scroll_Callback, clamp, h1, h2, if_true, if_false]
    subst hd
    split_ifs <;> norm_num at * <;> first | rfl | linarith
  · have h1 : d > 0.0 := by norm_num; linarith
    simp only [Mouse_Scroll_Callback, clamp, h1, if_true, if_false]
    split_ifs <;> norm_num at * <;> first | rfl | linarith

theorem scroll_frame (s : ViewState) (d : ℚ) :
    Mouse_Scroll_Callback s d = { s with gSpeedScale := (Mouse_Scroll_Callback s d).gSpeedScale } := by
  simp only [Mouse_Scroll_Callback]
  split_ifs <;> rfl

theorem clamp_bounds (x : ℚ) : 0.05 ≤ clamp x 0.05 20.0 ∧ clamp x 0.05 20.0 ≤ 20.0 := by
  unfold clamp
  split_ifs <;> constructor <;> norm_num at * <;> linarith

/-- A completed `PrepareSceneView` leaves the state of `ProcessKeyboardEvents`
after the timing update, except for the shader manager. -/
theorem PrepareSceneView_ok (lib : CameraLib) (s s' : ViewState) (glfwGetTime : ℚ)
    (keys : Keys) (h : PrepareSceneView lib s glfwGetTime keys = Except.ok s') :
    ∃ calls : ShaderManager,
      s' = { ProcessKeyboardEvents lib
              { s with gDeltaTime := glfwGetTime - s.gLastFrame, gLastFrame := glfwGetTime }
              keys with
             m_pShaderManager := some calls } := by
  obtain hs | ⟨calls, hs⟩ := Option.eq_none_or_eq_some s.m_pShaderManager
  · rw [PrepareSceneView_none lib s glfwGetTime keys hs] at h
    cases h
  · rw [PrepareSceneView_some lib s glfwGetTime keys calls hs] at h
    injection h with h
    exact ⟨_, h.symm⟩

theorem Mouse_Position_Callback_frame (lib : CameraLib) (s : ViewState) (x y : ℚ) :
    (Mouse_Position_Callback lib s x y).gSpeedScale = s.gSpeedScale ∧
    (Mouse_Position_Callback lib s x y).bOrthographicProjection = s.bOrthographicProjection ∧
    (Mouse_Position_Callback lib s x y).lastOrtho = s.lastOrtho ∧
    (Mouse_Position_Callback lib s x y).cout = s.cout := by
  simp only [Mouse_Position_Callback, callProcessMouseMovement]
  split_ifs <;> exact ⟨rfl, rfl, rfl, rfl⟩

theorem Mouse_Scroll_Callback_frame (s : ViewState) (d : ℚ) :
    (Mouse_Scroll_Callback s d).bOrthographicProjection = s.bOrthographicProjection ∧
    (Mouse_Scroll_Callback s d).lastOrtho = s.lastOrtho ∧
    (Mouse_Scroll_Callback s d).cout = s.cout := by
  rw [scroll_frame]
  exact ⟨rfl, rfl, rfl⟩

/-- In every reachable state the speed scale lies in `[0.05, 20.0]`, and
`lastOrtho`, once initialised, holds the projection mode. -/
theorem Reachable_invariant (lib : CameraLib) (newCamera : Camera)
    (pShaderManager : Option ShaderManager) (s : ViewState)
    (h : Reachable lib newCamera pShaderManager s) :
    (0.05 ≤ s.gSpeedScale ∧ s.gSpeedScale ≤ 20.0) ∧
    s.lastOrtho.getD s.bOrthographicProjection = s.bOrthographicProjection := by
  induction h with
  | start => exact ⟨by norm_num [ViewManager], rfl⟩
  | mouseMove x y _ ih =>
    obtain ⟨h1, h2, h3, _⟩ := Mouse_Position_Callback_frame lib _ x y
    rw [h1, h2, h3]
    exact ih
  | scroll d _ ih =>
    obtain ⟨h2, h3, _⟩ := Mouse_Scroll_Callback_frame _ d
    rw [h2, h3, scroll_speed]
    exact ⟨clamp_bounds _, ih.2⟩
  | keyboard keys _ ih =>
    rw [ProcessKeyboardEvents_gSpeedScale, ProcessKeyboardEvents_lastOrtho]
    exact ⟨ih.1, rfl⟩
  | frame t keys _ hok ih =>
    obtain ⟨calls, rfl⟩ := PrepareSceneView_ok lib _ _ t keys hok
    show (0.05 ≤ (ProcessKeyboardEvents lib _ keys).gSpeedScale ∧
        (ProcessKeyboardEvents lib _ keys).gSpeedScale ≤ 20.0) ∧
      (ProcessKeyboardEvents lib _ keys).lastOrtho.getD
          (ProcessKeyboardEvents lib _ keys).bOrthographicProjection
        = (ProcessKeyboardEvents lib _ keys).bOrthographicProjection
    rw [ProcessKeyboardEvents_gSpeedScale, ProcessKeyboardEvents_lastOrtho]
    exact ⟨ih.1, rfl⟩

theorem scrollRun_bounds (s : ViewState) (ds : List ℚ)
    (h : 0.05 ≤ s.gSpeedScale ∧ s.gSpeedScale ≤ 20.0) :
    0.05 ≤ (scrollRun s ds).gSpeedScale ∧ (scrollRun s ds).gSpeedScale ≤ 20.0 := by
  induction ds generalizing s with
  | nil => exact h
  | cons d ds ih =>
    show 0.05 ≤ (scrollRun (Mouse_Scroll_Callback s d) ds).gSpeedScale ∧
      (scrollRun (Mouse_Scroll_Callback s d) ds).gSpeedScale ≤ 20.0
    apply ih
    rw [scroll_speed]
    exact clamp_bounds _

/-- While T is held with G up in orthographic mode, nothing is printed. -/
theorem keyboardRun_hold_T (lib : CameraLib) (ks : List Keys) (s : ViewState)
    (hmode : s.bOrthographicProjection = true) (hlast : s.lastOrtho = some true)
    (hks : ∀ k ∈ ks, k.GLFW_KEY_T = true ∧ k.GLFW_KEY_G = false) :
    (keyboardRun lib s ks).cout = s.cout := by
  induction ks generalizing s with
  | nil => rfl
  | cons k ks ih =>
    have hk := hks k (List.mem_cons_self k ks)
    have hm : (ProcessKeyboardEvents lib s k).bOrthographicProjection = true := by
      rw [ProcessKeyboardEvents_mode, hk.1, hk.2]
      rfl
    show (keyboardRun lib (ProcessKeyboardEvents lib s k) ks).cout = s.cout
    rw [ih (ProcessKeyboardEvents lib s k) hm
      (by rw [ProcessKeyboardEvents_lastOrtho, hm])
      (fun k' hk' => hks k' (List.mem_cons_of_mem k hk'))]
    rw [ProcessKeyboardEvents_cout, hm, hlast]
    simp

/-! ## Preset keys and the camera -/

theorem pollPresetKeys_only_1 (lib : CameraLib) (s : ViewState) (keys : Keys)
    (h1 : keys.GLFW_KEY_1 = true) (h2 : keys.GLFW_KEY_2 = false)
    (h3 : keys.GLFW_KEY_3 = false) :
    (pollPresetKeys lib s keys).g_pCamera
      = { s.g_pCamera with
          Position := ⟨0.0, 12.0, 25.0⟩
          Front := lib.normalize ⟨0.0, -0.2, -1.0⟩ } := by
  simp [pollPresetKeys, h1, h2, h3]

theorem pollPresetKeys_only_2 (lib : CameraLib) (s : ViewState) (keys : Keys)
    (h1 : keys.GLFW_KEY_1 = false) (h2 : keys.GLFW_KEY_2 = true)
    (h3 : keys.GLFW_KEY_3 = false) :
    (pollPresetKeys lib s keys).g_pCamera
      = { s.g_pCamera with
          Position := ⟨0.0, 22.0, 12.0⟩
          Front := lib.normalize ⟨0.0, -0.1, -1.0⟩ } := by
  simp [pollPresetKeys, h1, h2, h3]

theorem pollPresetKeys_only_3 (lib : CameraLib) (s : ViewState) (keys : Keys)
    (h1 : keys.GLFW_KEY_1 = false) (h2 : keys.GLFW_KEY_2 = false)
    (h3 : keys.GLFW_KEY_3 = true) :
    (pollPresetKeys lib s keys).g_pCamera
      = { s.g_pCamera with
          Position := ⟨15.0, 21.0, 25.0⟩
          Front := lib.normalize ⟨-0.3, -0.4, -1.0⟩
          Up := ⟨0.0, 1.0, 0.0⟩ } := by
  simp [pollPresetKeys, h1, h2, h3]

/-- With no movement key and no arrow key down, the camera reaches the preset
block as it was at entry. -/
theorem camera_before_presets (lib : CameraLib) (s : ViewState) (keys : Keys)
    (hW : keys.GLFW_KEY_W = false) (hS : keys.GLFW_KEY_S = false)
    (hA : keys.GLFW_KEY_A = false) (hD : keys.GLFW_KEY_D = false)
    (hQ : keys.GLFW_KEY_Q = false) (hE : keys.GLFW_KEY_E = false)
    (hL : keys.GLFW_KEY_LEFT = false) (hR : keys.GLFW_KEY_RIGHT = false)
    (hDn : keys.GLFW_KEY_DOWN = false) (hU : keys.GLFW_KEY_UP = false) :
    (pollProjectionKeys
      (pollLookKeys lib (pollMovementKeys lib (pollEscapeKey s keys) keys) keys)
      keys).g_pCamera = s.g_pCamera := by
  have h2 : ∀ s : ViewState, pollMovementKeys lib s keys = s := by
    intro s
    simp [pollMovementKeys, hW, hS, hA, hD, hQ, hE]
  have h3 : ∀ s : ViewState, pollLookKeys lib s keys = s := by
    intro s
    simp [pollLookKeys, hL, hR, hDn, hU]
  rw [pollProjectionKeys_frame, h3, h2, pollEscapeKey_frame]

/-! ## Mouse movement -/

/-- The first mouse-move event: the recorded position is seeded before the
offsets are taken, so both offsets are zero. -/
theorem Mouse_Position_Callback_first (lib : CameraLib) (s : ViewState) (x y : ℚ)
    (h : s.gFirstMouse = true) :
    (Mouse_Position_Callback lib s x y).gLastX = x ∧
    (Mouse_Position_Callback lib s x y).gLastY = y ∧
    (Mouse_Position_Callback lib s x y).gFirstMouse = false ∧
    (Mouse_Position_Callback lib s x y).cameraCalls
      = s.cameraCalls ++ [CameraCall.ProcessMouseMovement 0 0] ∧
    (Mouse_Position_Callback lib s x y).g_pCamera
      = lib.ProcessMouseMovement s.g_pCamera 0 0 := by
  simp [Mouse_Position_Callback, callProcessMouseMovement, h]

/-- A mouse-move event that is not the first one. -/
theorem Mouse_Position_Callback_later (lib : CameraLib) (s : ViewState) (x y : ℚ)
    (h : s.gFirstMouse = false) :
    (Mouse_Position_Callback lib s x y).cameraCalls
      = s.cameraCalls ++ [CameraCall.ProcessMouseMovement (x - s.gLastX) (s.gLastY - y)] ∧
    (Mouse_Position_Callback lib s x y).g_pCamera
      = lib.ProcessMouseMovement s.g_pCamera (x - s.gLastX) (s.gLastY - y) ∧
    (Mouse_Position_Callback lib s x y).gLastX = x ∧
    (Mouse_Position_Callback lib s x y).gLastY = y ∧
    (Mouse_Position_Callback lib s x y).gFirstMouse = false := by
  simp [Mouse_Position_Callback, callProcessMouseMovement, h]

/-- The calls a run of later mouse-move events adds, and the sums of their
offsets: last cursor position against the recorded one. -/
theorem mouseRun_later (lib : CameraLib) (ps : List (ℚ × ℚ)) (s : ViewState)
    (h : s.gFirstMouse = false) :
    ∃ added : List CameraCall,
      (mouseRun lib s ps).cameraCalls = s.cameraCalls ++ added ∧
      (xOffsets added).sum = (ps.getLastD (s.gLastX, s.gLastY)).1 - s.gLastX ∧
      (yOffsets added).sum = s.gLastY - (ps.getLastD (s.gLastX, s.gLastY)).2 := by
  induction ps generalizing s with
  | nil => exact ⟨[], by simp [mouseRun], by simp [xOffsets], by simp [yOffsets]⟩
  | cons p ps ih =>
    obtain ⟨hc, _, hx, hy, hf⟩ := Mouse_Position_Callback_later lib s p.1 p.2 h
    obtain ⟨added, ha, hsx, hsy⟩ := ih (Mouse_Position_Callback lib s p.1 p.2) hf
    refine ⟨CameraCall.ProcessMouseMovement (p.1 - s.gLastX) (s.gLastY - p.2) :: added,
      ?_, ?_, ?_⟩
    · show (mouseRun lib (Mouse_Position_Callback lib s p.1 p.2) ps).cameraCalls = _
      rw [ha, hc]
      simp
    · rw [hx, hy] at hsx
      rw [List.getLastD_cons]
      simp only [xOffsets, List.sum_cons, hsx]
      ring
    · rw [hx, hy] at hsy
      rw [List.getLastD_cons]
      simp only [yOffsets, List.sum_cons, hsy]
      ring

/-- C1. A scroll event with delta `d` replaces the speed scale `s` by
`clamp (s + 0.5 * d) 0.05 20.0` and changes nothing else; three scroll events
of `+1.0` from the initial state give a speed scale of exactly `6.5`. -/
theorem C1_scroll_sets_clamped_speed :
    (∀ (s : ViewState) (d : ℚ),
      Mouse_Scroll_Callback s d
        = { s with gSpeedScale := clamp (s.gSpeedScale + 0.5 * d) 0.05 20.0 }) ∧
    (∀ (s : ViewState), (Mouse_Scroll_Callback s 0).gSpeedScale
        = clamp (s.gSpeedScale + 0) 0.05 20.0) ∧
    (∀ (newCamera : Camera) (pShaderManager : Option ShaderManager),
      (ViewManager newCamera pShaderManager).gSpeedScale = 5.0 ∧
      (Mouse_Scroll_Callback (Mouse_Scroll_Callback (Mouse_Scroll_Callback
        (ViewManager newCamera pShaderManager) 1.0) 1.0) 1.0).gSpeedScale = 6.5) := by
  refine ⟨?_, ?_, ?_⟩
  · intro s d
    rw [← scroll_speed]
    exact scroll_frame s d
  · intro s
    rw [scroll_speed]
    norm_num
  · intro newCamera pShaderManager
    refine ⟨rfl, ?_⟩
    rw [scroll_speed, scroll_speed, scroll_speed]
    norm_num [ViewManager, clamp]

/-- C2. The speed scale starts at `5.0`; in every reachable state, and after
every finite sequence of scroll events from the initial state, it lies in
`[0.05, 20.0]`; at `0.05` a scroll of `-1.0` leaves it at `0.05`, and at `20.0`
a scroll of `+1.0` leaves it at `20.0`. -/
theorem C2_speed_scale_stays_in_range (lib : CameraLib) (newCamera : Camera)
    (pShaderManager : Option ShaderManager) :
    (ViewManager newCamera pShaderManager).gSpeedScale = 5.0 ∧
    (∀ s : ViewState, Reachable lib newCamera pShaderManager s →
      0.05 ≤ s.gSpeedScale ∧ s.gSpeedScale ≤ 20.0) ∧
    (∀ ds : List ℚ,
      0.05 ≤ (scrollRun (ViewManager newCamera pShaderManager) ds).gSpeedScale ∧
      (scrollRun (ViewManager newCamera pShaderManager) ds).gSpeedScale ≤ 20.0) ∧
    (∀ s : ViewState, s.gSpeedScale = 0.05 →
      (Mouse_Scroll_Callback s (-1.0)).gSpeedScale = 0.05) ∧
    (∀ s : ViewState, s.gSpeedScale = 20.0 →
      (Mouse_Scroll_Callback s 1.0).gSpeedScale = 20.0) := by
  refine ⟨rfl, ?_, ?_, ?_, ?_⟩
  · intro s hs
    exact (Reachable_invariant lib newCamera pShaderManager s hs).1
  · intro ds
    apply scrollRun_bounds
    norm_num [ViewManager]
  · intro s hs
    rw [scroll_speed, hs]
    norm_num [clamp]
  · intro s hs
    rw [scroll_speed, hs]
    norm_num [clamp]

/-- C2, at a concrete input: the state after scrolls of `+100` and `-1` is
reachable and its speed scale `19.5` lies in range; the lower bound absorbs a
scroll of `-1.0` and the upper bound a scroll of `+1.0`. -/
theorem C2_speed_scale_stays_in_range_witness :
    Reachable CameraLib.still Camera.zero none
      (Mouse_Scroll_Callback (Mouse_Scroll_Callback (ViewManager Camera.zero none) 100) (-1)) ∧
    (0.05 ≤ (Mouse_Scroll_Callback (Mouse_Scroll_Callback
        (ViewManager Camera.zero none) 100) (-1)).gSpeedScale ∧
      (Mouse_Scroll_Callback (Mouse_Scroll_Callback
        (ViewManager Camera.zero none) 100) (-1)).gSpeedScale ≤ 20.0) ∧
    (Mouse_Scroll_Callback { ViewManager Camera.zero none with gSpeedScale := 0.05 }
        (-1.0)).gSpeedScale = 0.05 ∧
    (Mouse_Scroll_Callback { ViewManager Camera.zero none with gSpeedScale := 20.0 }
        1.0).gSpeedScale = 20.0 :=
  ⟨Reachable.scroll (-1) (Reachable.scroll 100 Reachable.start),
   (C2_speed_scale_stays_in_range CameraLib.still Camera.zero none).2.1 _
     (Reachable.scroll (-1) (Reachable.scroll 100 Reachable.start)),
   (C2_speed_scale_stays_in_range CameraLib.still Camera.zero none).2.2.2.1 _ rfl,
   (C2_speed_scale_stays_in_range CameraLib.still Camera.zero none).2.2.2.2 _ rfl⟩

/-- C3. The program starts in perspective mode.  From every reachable state, a
call of `ProcessKeyboardEvents` (on its own or inside a completed
`PrepareSceneView`) prints the message of the new mode exactly when the mode
after the call differs from the mode before it, and prints nothing otherwise.
Holding T, with G up, for one or more frames from a reachable state in
perspective mode prints exactly one message in total. -/
theorem C3_mode_message_edge_triggered (lib : CameraLib) (newCamera : Camera)
    (pShaderManager : Option ShaderManager) :
    (ViewManager newCamera pShaderManager).bOrthographicProjection = false ∧
    (∀ (s : ViewState) (keys : Keys), Reachable lib newCamera pShaderManager s →
      (ProcessKeyboardEvents lib s keys).cout
        = s.cout ++
          (if (ProcessKeyboardEvents lib s keys).bOrthographicProjection
                = s.bOrthographicProjection then []
           else [modeMessage (ProcessKeyboardEvents lib s keys).bOrthographicProjection])) ∧
    (∀ (s s' : ViewState) (glfwGetTime : ℚ) (keys : Keys),
      Reachable lib newCamera pShaderManager s →
      PrepareSceneView lib s glfwGetTime keys = Except.ok s' →
      s'.cout
        = s.cout ++
          (if s'.bOrthographicProjection = s.bOrthographicProjection then []
           else [modeMessage s'.bOrthographicProjection])) ∧
    (∀ (s : ViewState) (ks : List Keys), Reachable lib newCamera pShaderManager s →
      s.bOrthographicProjection = false → ks ≠ [] →
      (∀ k ∈ ks, k.GLFW_KEY_T = true ∧ k.GLFW_KEY_G = false) →
      (keyboardRun lib s ks).cout = s.cout ++ [modeMessage true]) := by
  refine ⟨rfl, ?_, ?_, ?_⟩
  · intro s keys hs
    rw [ProcessKeyboardEvents_cout, (Reachable_invariant lib newCamera pShaderManager s hs).2]
  · intro s s' t keys hs hok
    obtain ⟨calls, rfl⟩ := PrepareSceneView_ok lib s s' t keys hok
    have hinv := (Reachable_invariant lib newCamera pShaderManager s hs).2
    have hc := ProcessKeyboardEvents_cout lib
      { s with gDeltaTime := t - s.gLastFrame, gLastFrame := t } keys
    rw [show ({ s with gDeltaTime := t - s.gLastFrame, gLastFrame := t } : ViewState).lastOrtho.getD
      ({ s with gDeltaTime := t - s.gLastFrame, gLastFrame := t } : ViewState).bOrthographicProjection
        = s.bOrthographicProjection from hinv] at hc
    exact hc
  · intro s ks hs hmode hne hks
    cases ks with
    | nil => exact absurd rfl hne
    | cons k ks =>
      have hk := hks k (List.mem_cons_self k ks)
      have hm : (ProcessKeyboardEvents lib s k).bOrthographicProjection = true := by
        rw [ProcessKeyboardEvents_mode, hk.1, hk.2]
        rfl
      show (keyboardRun lib (ProcessKeyboardEvents lib s k) ks).cout = s.cout ++ [modeMessage true]
      rw [keyboardRun_hold_T lib ks (ProcessKeyboardEvents lib s k) hm
        (by rw [ProcessKeyboardEvents_lastOrtho, hm])
        (fun k' hk' => hks k' (List.mem_cons_of_mem k hk'))]
      rw [ProcessKeyboardEvents_cout, hm,
        (Reachable_invariant lib newCamera pShaderManager s hs).2, hmode]
      simp

/-- C3, at a concrete input: T held for three frames from the initial state
prints the orthographic message once. -/
theorem C3_mode_message_edge_triggered_witness :
    Reachable CameraLib.still Camera.zero none (ViewManager Camera.zero none) ∧
    (keyboardRun CameraLib.still (ViewManager Camera.zero none)
        [{ Keys.none with GLFW_KEY_T := true }, { Keys.none with GLFW_KEY_T := true },
         { Keys.none with GLFW_KEY_T := true }]).cout
      = [] ++ ["View Set to Orthographic (2D)\n"] :=
  ⟨Reachable.start,
   (C3_mode_message_edge_triggered CameraLib.still Camera.zero none).2.2.2
     (ViewManager Camera.zero none) _ Reachable.start rfl (by simp)
     (by intro k hk; simp at hk; subst hk; exact ⟨rfl, rfl⟩)⟩

/-- C4. The projection mode starts as perspective.  A call of
`ProcessKeyboardEvents` with neither T nor G down leaves the mode as it was,
whatever the other keys; with T down and G up it ends in orthographic mode,
with G down and T up in perspective mode, from either mode.  The same holds for
a completed `PrepareSceneView`, and the mouse and scroll callbacks never change
the mode. -/
theorem C4_projection_mode_two_state_machine (lib : CameraLib) :
    (∀ (newCamera : Camera) (pShaderManager : Option ShaderManager),
      (ViewManager newCamera pShaderManager).bOrthographicProjection = false) ∧
    (∀ (s : ViewState) (keys : Keys), keys.GLFW_KEY_T = false → keys.GLFW_KEY_G = false →
      (ProcessKeyboardEvents lib s keys).bOrthographicProjection = s.bOrthographicProjection) ∧
    (∀ (s : ViewState) (keys : Keys), keys.GLFW_KEY_T = true → keys.GLFW_KEY_G = false →
      (ProcessKeyboardEvents lib s keys).bOrthographicProjection = true) ∧
    (∀ (s : ViewState) (keys : Keys), keys.GLFW_KEY_T = false → keys.GLFW_KEY_G = true →
      (ProcessKeyboardEvents lib s keys).bOrthographicProjection = false) ∧
    (∀ (s s' : ViewState) (glfwGetTime : ℚ) (keys : Keys),
      PrepareSceneView lib s glfwGetTime keys = Except.ok s' →
      s'.bOrthographicProjection
        = (ProcessKeyboardEvents lib s keys).bOrthographicProjection) ∧
    (∀ (s : ViewState) (x y : ℚ),
      (Mouse_Position_Callback lib s x y).bOrthographicProjection
        = s.bOrthographicProjection) ∧
    (∀ (s : ViewState) (d : ℚ),
      (Mouse_Scroll_Callback s d).bOrthographicProjection = s.bOrthographicProjection) := by
  refine ⟨fun _ _ => rfl, ?_, ?_, ?_, ?_, ?_, ?_⟩
  · intro s keys hT hG
    rw [ProcessKeyboardEvents_mode, hT, hG]
    rfl
  · intro s keys hT hG
    rw [ProcessKeyboardEvents_mode, hT, hG]
    rfl
  · intro s keys _ hG
    rw [ProcessKeyboardEvents_mode, hG]
    rfl
  · intro s s' t keys hok
    obtain ⟨calls, rfl⟩ := PrepareSceneView_ok lib s s' t keys hok
    show (ProcessKeyboardEvents lib _ keys).bOrthographicProjection = _
    rw [ProcessKeyboardEvents_mode, ProcessKeyboardEvents_mode]
  · intro s x y
    exact (Mouse_Position_Callback_frame lib s x y).2.1
  · intro s d
    exact (Mouse_Scroll_Callback_frame s d).1

/-- C4, at a concrete input: from the initial state a frame with no key down
stays in perspective mode, a frame with T down ends in orthographic mode, and a
following frame with G down ends in perspective mode. -/
theorem C4_projection_mode_two_state_machine_witness :
    (ProcessKeyboardEvents CameraLib.still (ViewManager Camera.zero none)
        Keys.none).bOrthographicProjection = false ∧
    (ProcessKeyboardEvents CameraLib.still (ViewManager Camera.zero none)
        { Keys.none with GLFW_KEY_T := true }).bOrthographicProjection = true ∧
    (ProcessKeyboardEvents CameraLib.still
        (ProcessKeyboardEvents CameraLib.still (ViewManager Camera.zero none)
          { Keys.none with GLFW_KEY_T := true })
        { Keys.none with GLFW_KEY_G := true }).bOrthographicProjection = false :=
  ⟨(C4_projection_mode_two_state_machine CameraLib.still).2.1 _ Keys.none rfl rfl,
   (C4_projection_mode_two_state_machine CameraLib.still).2.2.1 _
     { Keys.none with GLFW_KEY_T := true } rfl rfl,
   (C4_projection_mode_two_state_machine CameraLib.still).2.2.2.1 _
     { Keys.none with GLFW_KEY_G := true } rfl rfl⟩

/-- C5. The state the constructor leaves has the first-mouse flag set and
`(gLastX, gLastY) = (500, 400)`.  Whenever the flag is set, a mouse-move event
at `(x, y)` leaves `gLastX = x`, `gLastY = y` and the flag cleared, and the one
call it makes on the camera is `ProcessMouseMovement(0, 0)`, whatever
`gLastX` and `gLastY` were. -/
theorem C5_first_mouse_event_zero_offsets (lib : CameraLib) :
    (∀ (newCamera : Camera) (pShaderManager : Option ShaderManager),
      (ViewManager newCamera pShaderManager).gFirstMouse = true ∧
      (ViewManager newCamera pShaderManager).gLastX = 500 ∧
      (ViewManager newCamera pShaderManager).gLastY = 400) ∧
    (∀ (s : ViewState) (x y : ℚ), s.gFirstMouse = true →
      (Mouse_Position_Callback lib s x y).gLastX = x ∧
      (Mouse_Position_Callback lib s x y).gLastY = y ∧
      (Mouse_Position_Callback lib s x y).gFirstMouse = false ∧
      (Mouse_Position_Callback lib s x y).cameraCalls
        = s.cameraCalls ++ [CameraCall.ProcessMouseMovement 0 0] ∧
      (Mouse_Position_Callback lib s x y).g_pCamera
        = lib.ProcessMouseMovement s.g_pCamera 0 0) := by
  refine ⟨?_, ?_⟩
  · intro newCamera pShaderManager
    norm_num [ViewManager, WINDOW_WIDTH, WINDOW_HEIGHT]
  · intro s x y h
    exact Mouse_Position_Callback_first lib s x y h

/-- C5, at a concrete input: the first event at `(7, 9)` after construction. -/
theorem C5_first_mouse_event_zero_offsets_witness :
    (ViewManager Camera.zero none).gFirstMouse = true ∧
    (Mouse_Position_Callback CameraLib.still (ViewManager Camera.zero none) 7 9).cameraCalls
      = [] ++ [CameraCall.ProcessMouseMovement 0 0] :=
  ⟨rfl,
   ((C5_first_mouse_event_zero_offsets CameraLib.still).2
     (ViewManager Camera.zero none) 7 9 rfl).2.2.2.1⟩

/-- C6. After `ProcessKeyboardEvents` runs with key 1 down and keys 2 and 3 up,
the camera position is `(0, 12, 25)` and its front is
`normalize((0, -0.2, -1))`, whatever the camera was before and whatever the
other keys are. -/
theorem C6_preset_key_1_teleports (lib : CameraLib) (s : ViewState) (keys : Keys)
    (h1 : keys.GLFW_KEY_1 = true) (h2 : keys.GLFW_KEY_2 = false)
    (h3 : keys.GLFW_KEY_3 = false) :
    (ProcessKeyboardEvents lib s keys).g_pCamera.Position = ⟨0, 12, 25⟩ ∧
    (ProcessKeyboardEvents lib s keys).g_pCamera.Front = lib.normalize ⟨0, -0.2, -1⟩ := by
  unfold ProcessKeyboardEvents
  simp only []
  rw [pollPresetKeys_only_1 lib _ keys h1 h2 h3]
  norm_num

/-- C6, at a concrete input: key 1 together with W, the left arrow and T, from
the state the constructor leaves. -/
theorem C6_preset_key_1_teleports_witness :
    (ProcessKeyboardEvents CameraLib.still (ViewManager Camera.zero none)
        { Keys.none with GLFW_KEY_1 := true, GLFW_KEY_W := true, GLFW_KEY_LEFT := true,
                         GLFW_KEY_T := true }).g_pCamera.Position = ⟨0, 12, 25⟩ ∧
    (ProcessKeyboardEvents CameraLib.still (ViewManager Camera.zero none)
        { Keys.none with GLFW_KEY_1 := true, GLFW_KEY_W := true, GLFW_KEY_LEFT := true,
                         GLFW_KEY_T := true }).g_pCamera.Front
      = CameraLib.still.normalize ⟨0, -0.2, -1⟩ :=
  C6_preset_key_1_teleports CameraLib.still (ViewManager Camera.zero none)
    { Keys.none with GLFW_KEY_1 := true, GLFW_KEY_W := true, GLFW_KEY_LEFT := true,
                     GLFW_KEY_T := true } rfl rfl rfl

/-- C7. With a null shader manager handle `PrepareSceneView` does not complete:
after the guarded block is skipped, the unguarded `setMat4Value("view", ..)`
that follows it goes through the null handle. -/
theorem C7_null_shader_manager_is_dereferenced (lib : CameraLib) (s : ViewState)
    (glfwGetTime : ℚ) (keys : Keys) :
    PrepareSceneView lib { s with m_pShaderManager := none } glfwGetTime keys
      = Except.error Fault.nullPointerDereference :=
  PrepareSceneView_none lib { s with m_pShaderManager := none } glfwGetTime keys rfl

/-- C8. The aspect ratio is `1000 / 800 = 1.25`.  In perspective mode the
projection is `perspective(radians(Zoom), 1.25, 0.1, 100.0)`; in orthographic
mode it is `ortho(-31.25, 31.25, -25.0, 25.0, 1.0, 100.0)`; two states with the
same mode and the same camera zoom give the same projection.  With a shader
manager, `PrepareSceneView` completes and the projection it publishes is the
one of the mode and zoom of the state it returns. -/
theorem C8_projection_parameters (lib : CameraLib) :
    (WINDOW_WIDTH : ℚ) / (WINDOW_HEIGHT : ℚ) = 1.25 ∧
    (∀ s : ViewState, s.bOrthographicProjection = false →
      sceneProjection lib s
        = Projection.perspective (lib.radians s.g_pCamera.Zoom) 1.25 0.1 100.0) ∧
    (∀ s : ViewState, s.bOrthographicProjection = true →
      sceneProjection lib s = Projection.ortho (-31.25) 31.25 (-25.0) 25.0 1.0 100.0) ∧
    (∀ s₁ s₂ : ViewState, s₁.bOrthographicProjection = s₂.bOrthographicProjection →
      s₁.g_pCamera.Zoom = s₂.g_pCamera.Zoom →
      sceneProjection lib s₁ = sceneProjection lib s₂) ∧
    (∀ (s : ViewState) (glfwGetTime : ℚ) (keys : Keys) (calls : ShaderManager),
      s.m_pShaderManager = some calls →
      ∃ s' : ViewState, PrepareSceneView lib s glfwGetTime keys = Except.ok s' ∧
        s'.m_pShaderManager
          = some (calls ++
              [("view", UniformValue.view s'.g_pCamera),
               ("projection", UniformValue.projection (sceneProjection lib s')),
               ("viewPosition", UniformValue.vec3 s'.g_pCamera.Position),
               ("view", UniformValue.view s'.g_pCamera),
               ("projection", UniformValue.projection (sceneProjection lib s')),
               ("viewPosition", UniformValue.vec3 s'.g_pCamera.Position)])) := by
  refine ⟨?_, ?_, ?_, ?_, ?_⟩
  · norm_num [WINDOW_WIDTH, WINDOW_HEIGHT]
  · intro s h
    simp only [sceneProjection, h]
    norm_num [WINDOW_WIDTH, WINDOW_HEIGHT]
  · intro s h
    simp only [sceneProjection, h]
    norm_num [WINDOW_WIDTH, WINDOW_HEIGHT]
  · intro s₁ s₂ h1 h2
    simp only [sceneProjection, h1, h2]
  · intro s t keys calls h
    exact ⟨_, PrepareSceneView_some lib s t keys calls h, rfl⟩

/-- C8, at a concrete input: the frame at clock reading 1 with T down, from the
state the constructor leaves with an empty shader manager, publishes the
orthographic volume. -/
theorem C8_projection_parameters_witness :
    (ProcessKeyboardEvents CameraLib.still (ViewManager Camera.zero (some []))
        { Keys.none with GLFW_KEY_T := true }).bOrthographicProjection = true ∧
    sceneProjection CameraLib.still
        (ProcessKeyboardEvents CameraLib.still (ViewManager Camera.zero (some []))
          { Keys.none with GLFW_KEY_T := true })
      = Projection.ortho (-31.25) 31.25 (-25.0) 25.0 1.0 100.0 ∧
    sceneProjection CameraLib.still (ViewManager Camera.zero (some []))
      = Projection.perspective (CameraLib.still.radians 80) 1.25 0.1 100.0 ∧
    (∃ s' : ViewState,
      PrepareSceneView CameraLib.still (ViewManager Camera.zero (some [])) 1
          { Keys.none with GLFW_KEY_T := true } = Except.ok s' ∧
      s'.m_pShaderManager
        = some ([] ++
            [("view", UniformValue.view s'.g_pCamera),
             ("projection", UniformValue.projection (sceneProjection CameraLib.still s')),
             ("viewPosition", UniformValue.vec3 s'.g_pCamera.Position),
             ("view", UniformValue.view s'.g_pCamera),
             ("projection", UniformValue.projection (sceneProjection CameraLib.still s')),
             ("viewPosition", UniformValue.vec3 s'.g_pCamera.Position)])) :=
  ⟨(ProcessKeyboardEvents_mode CameraLib.still _ _).trans rfl,
   (C8_projection_parameters CameraLib.still).2.2.1 _
     ((ProcessKeyboardEvents_mode CameraLib.still _ _).trans rfl),
   (C8_projection_parameters CameraLib.still).2.1 _ rfl,
   (C8_projection_parameters CameraLib.still).2.2.2.2 _ 1
     { Keys.none with GLFW_KEY_T := true } [] rfl⟩

/-- C9. With key 1 alone down, or key 2 alone down, `ProcessKeyboardEvents`
leaves the camera's up vector as it was before the frame, while key 3 alone
sets it to `(0, 1, 0)`: after key 1 the up vector is `(1, 0, 0)` from a camera
whose up vector was `(1, 0, 0)`, and `(0, 0, 1)` from one whose up vector was
`(0, 0, 1)`. -/
theorem C9_preset_keys_1_and_2_keep_prior_up :
    (∀ (lib : CameraLib) (s : ViewState),
      (ProcessKeyboardEvents lib s { Keys.none with GLFW_KEY_1 := true }).g_pCamera.Up
        = s.g_pCamera.Up) ∧
    (∀ (lib : CameraLib) (s : ViewState),
      (ProcessKeyboardEvents lib s { Keys.none with GLFW_KEY_2 := true }).g_pCamera.Up
        = s.g_pCamera.Up) ∧
    (∀ (lib : CameraLib) (s : ViewState),
      (ProcessKeyboardEvents lib s { Keys.none with GLFW_KEY_3 := true }).g_pCamera.Up
        = ⟨0, 1, 0⟩) ∧
    (ProcessKeyboardEvents CameraLib.still
        { ViewManager Camera.zero none with
          g_pCamera := { Camera.zero with Up := ⟨1, 0, 0⟩ } }
        { Keys.none with GLFW_KEY_1 := true }).g_pCamera.Up = ⟨1, 0, 0⟩ ∧
    (ProcessKeyboardEvents CameraLib.still
        { ViewManager Camera.zero none with
          g_pCamera := { Camera.zero with Up := ⟨0, 0, 1⟩ } }
        { Keys.none with GLFW_KEY_1 := true }).g_pCamera.Up = ⟨0, 0, 1⟩ := by
  have k1 : ∀ (lib : CameraLib) (s : ViewState),
      (ProcessKeyboardEvents lib s { Keys.none with GLFW_KEY_1 := true }).g_pCamera.Up
        = s.g_pCamera.Up := by
    intro lib s
    unfold ProcessKeyboardEvents
    simp only []
    rw [pollPresetKeys_only_1 lib _ _ rfl rfl rfl,
      camera_before_presets lib s _ rfl rfl rfl rfl rfl rfl rfl rfl rfl rfl]
  refine ⟨k1, ?_, ?_, k1 _ _, k1 _ _⟩
  · intro lib s
    unfold ProcessKeyboardEvents
    simp only []
    rw [pollPresetKeys_only_2 lib _ _ rfl rfl rfl,
      camera_before_presets lib s _ rfl rfl rfl rfl rfl rfl rfl rfl rfl rfl]
  · intro lib s
    unfold ProcessKeyboardEvents
    simp only []
    rw [pollPresetKeys_only_3 lib _ _ rfl rfl rfl]
    norm_num

/-- C10. A mouse-move event at `(x, y)` that is not the first one calls
`ProcessMouseMovement(x - gLastX, gLastY - y)` on the camera and leaves
`gLastX = x`, `gLastY = y`.  Over a run of events that starts with the first
one, the x offsets handed to the camera sum to `x_last - x_first` and the y
offsets to `y_first - y_last`; over a run of later events they sum to
`x_last - gLastX` and `gLastY - y_last`. -/
theorem C10_mouse_offsets_telescope (lib : CameraLib) :
    (∀ (s : ViewState) (x y : ℚ), s.gFirstMouse = false →
      (Mouse_Position_Callback lib s x y).cameraCalls
        = s.cameraCalls ++ [CameraCall.ProcessMouseMovement (x - s.gLastX) (s.gLastY - y)] ∧
      (Mouse_Position_Callback lib s x y).g_pCamera
        = lib.ProcessMouseMovement s.g_pCamera (x - s.gLastX) (s.gLastY - y) ∧
      (Mouse_Position_Callback lib s x y).gLastX = x ∧
      (Mouse_Position_Callback lib s x y).gLastY = y) ∧
    (∀ (s : ViewState) (p : ℚ × ℚ) (ps : List (ℚ × ℚ)), s.gFirstMouse = true →
      (xOffsets ((mouseRun lib s (p :: ps)).cameraCalls.drop s.cameraCalls.length)).sum
        = ((p :: ps).getLast (List.cons_ne_nil p ps)).1 - p.1 ∧
      (yOffsets ((mouseRun lib s (p :: ps)).cameraCalls.drop s.cameraCalls.length)).sum
        = p.2 - ((p :: ps).getLast (List.cons_ne_nil p ps)).2) ∧
    (∀ (s : ViewState) (p : ℚ × ℚ) (ps : List (ℚ × ℚ)), s.gFirstMouse = false →
      (xOffsets ((mouseRun lib s (p :: ps)).cameraCalls.drop s.cameraCalls.length)).sum
        = ((p :: ps).getLast (List.cons_ne_nil p ps)).1 - s.gLastX ∧
      (yOffsets ((mouseRun lib s (p :: ps)).cameraCalls.drop s.cameraCalls.length)).sum
        = s.gLastY - ((p :: ps).getLast (List.cons_ne_nil p ps)).2) := by
  refine ⟨?_, ?_, ?_⟩
  · intro s x y h
    obtain ⟨h1, h2, h3, h4, _⟩ := Mouse_Position_Callback_later lib s x y h
    exact ⟨h1, h2, h3, h4⟩
  · intro s p ps h
    obtain ⟨hx, hy, hf, hc, _⟩ := Mouse_Position_Callback_first lib s p.1 p.2 h
    obtain ⟨added, ha, hsx, hsy⟩ :=
      mouseRun_later lib ps (Mouse_Position_Callback lib s p.1 p.2) hf
    have hrun : (mouseRun lib s (p :: ps)).cameraCalls
        = s.cameraCalls ++ (CameraCall.ProcessMouseMovement 0 0 :: added) := by
      show (mouseRun lib (Mouse_Position_Callback lib s p.1 p.2) ps).cameraCalls = _
      rw [ha, hc]
      simp
    rw [hrun, List.drop_left, List.getLast_eq_getLastD]
    rw [hx, hy] at hsx hsy
    simp only [xOffsets, yOffsets, List.sum_cons, hsx, hsy]
    constructor <;> ring
  · intro s p ps h
    obtain ⟨added, ha, hsx, hsy⟩ := mouseRun_later lib (p :: ps) s h
    rw [ha, List.drop_left, List.getLast_eq_getLastD]
    rw [List.getLastD_cons] at hsx hsy
    exact ⟨hsx, hsy⟩

/-- C10, at a concrete input: the events `(3, 4)`, `(10, 1)`, `(6, 8)` after
construction hand the camera x offsets that sum to `6 - 3` and y offsets that
sum to `4 - 8`; a later event at `(10, 1)` with `(3, 4)` recorded hands the
camera the offsets `(10 - 3, 4 - 1)`. -/
theorem C10_mouse_offsets_telescope_witness :
    (ViewManager Camera.zero none).gFirstMouse = true ∧
    ((xOffsets ((mouseRun CameraLib.still (ViewManager Camera.zero none)
        [(3, 4), (10, 1), (6, 8)]).cameraCalls.drop 0)).sum = 6 - 3 ∧
     (yOffsets ((mouseRun CameraLib.still (ViewManager Camera.zero none)
        [(3, 4), (10, 1), (6, 8)]).cameraCalls.drop 0)).sum = 4 - 8) ∧
    (Mouse_Position_Callback CameraLib.still
        { ViewManager Camera.zero none with gFirstMouse := false, gLastX := 3, gLastY := 4 }
        10 1).cameraCalls
      = [] ++ [CameraCall.ProcessMouseMovement (10 - 3) (4 - 1)] :=
  ⟨rfl,
   (C10_mouse_offsets_telescope CameraLib.still).2.1
     (ViewManager Camera.zero none) (3, 4) [(10, 1), (6, 8)] rfl,
   ((C10_mouse_offsets_telescope CameraLib.still).1
     { ViewManager Camera.zero none with gFirstMouse := false, gLastX := 3, gLastY := 4 }
     10 1 rfl).1⟩

/-- The timing fields after a completed `PrepareSceneView`: the delta time is
the clock reading minus the previous `gLastFrame`, and `gLastFrame` becomes the
clock reading. -/
theorem PrepareSceneView_timing (lib : CameraLib) (s s' : ViewState) (glfwGetTime : ℚ)
    (keys : Keys) (h : PrepareSceneView lib s glfwGetTime keys = Except.ok s') :
    s'.gDeltaTime = glfwGetTime - s.gLastFrame ∧ s'.gLastFrame = glfwGetTime := by
  obtain ⟨calls, rfl⟩ := PrepareSceneView_ok lib s s' glfwGetTime keys h
  refine ⟨?_, ?_⟩
  · show (ProcessKeyboardEvents lib _ keys).gDeltaTime = _
    rw [ProcessKeyboardEvents_gDeltaTime]
  · show (ProcessKeyboardEvents lib _ keys).gLastFrame = _
    rw [ProcessKeyboardEvents_gLastFrame]

/-- C11, counterexample.  The first `PrepareSceneView` after construction, at
clock reading `100` with W down, completes with a delta time of `100`, the full
reading, and moves the camera forward by `100 * 5.0 = 500`. -/
theorem C11_first_frame_delta_is_full_reading :
    ∃ s' : ViewState,
      PrepareSceneView CameraLib.still (ViewManager Camera.zero (some [])) 100
          { Keys.none with GLFW_KEY_W := true } = Except.ok s' ∧
      s'.gDeltaTime = 100 ∧
      s'.cameraCalls = [CameraCall.ProcessKeyboard Camera_Movement.FORWARD 500] := by
  refine ⟨_, PrepareSceneView_some CameraLib.still (ViewManager Camera.zero (some [])) 100
    { Keys.none with GLFW_KEY_W := true } [] rfl, ?_, ?_⟩
  · show (ProcessKeyboardEvents CameraLib.still _ _).gDeltaTime = 100
    rw [ProcessKeyboardEvents_gDeltaTime]
    norm_num [ViewManager]
  · show (ProcessKeyboardEvents CameraLib.still _ _).cameraCalls = _
    simp [ProcessKeyboardEvents, pollEscapeKey, pollMovementKeys, pollLookKeys,
      pollProjectionKeys, pollPresetKeys, callProcessKeyboard, Keys.none, ViewManager]
    norm_num

/-- C11, as amended.  The constructor leaves `gLastFrame = 0`, and the mouse,
scroll and keyboard steps do not change it.  A completed `PrepareSceneView` at
clock reading `t` runs `ProcessKeyboardEvents` with the delta time
`t - gLastFrame` and records `t` as `gLastFrame`; so the first frame, entered
with `gLastFrame = 0`, has delta time `t`, and a frame that follows a frame at
reading `t₁` has delta time `t₂ - t₁`. -/
theorem C11_delta_time_is_reading_minus_last_frame (lib : CameraLib) :
    (∀ (newCamera : Camera) (pShaderManager : Option ShaderManager),
      (ViewManager newCamera pShaderManager).gLastFrame = 0) ∧
    (∀ (s : ViewState) (x y d : ℚ) (keys : Keys),
      (Mouse_Position_Callback lib s x y).gLastFrame = s.gLastFrame ∧
      (Mouse_Scroll_Callback s d).gLastFrame = s.gLastFrame ∧
      (ProcessKeyboardEvents lib s keys).gLastFrame = s.gLastFrame) ∧
    (∀ (s s' : ViewState) (t : ℚ) (keys : Keys),
      PrepareSceneView lib s t keys = Except.ok s' →
      s'.gDeltaTime = t - s.gLastFrame ∧ s'.gLastFrame = t ∧
      ∃ calls : ShaderManager,
        s' = { ProcessKeyboardEvents lib
                { s with gDeltaTime := t - s.gLastFrame, gLastFrame := t } keys with
               m_pShaderManager := some calls }) ∧
    (∀ (s s' : ViewState) (t : ℚ) (keys : Keys), s.gLastFrame = 0 →
      PrepareSceneView lib s t keys = Except.ok s' → s'.gDeltaTime = t) ∧
    (∀ (s s₁ s₂ : ViewState) (t₁ t₂ : ℚ) (keys₁ keys₂ : Keys),
      PrepareSceneView lib s t₁ keys₁ = Except.ok s₁ →
      PrepareSceneView lib s₁ t₂ keys₂ = Except.ok s₂ →
      s₂.gDeltaTime = t₂ - t₁) := by
  refine ⟨?_, ?_, ?_, ?_, ?_⟩
  · intro newCamera pShaderManager
    norm_num [ViewManager]
  · intro s x y d keys
    refine ⟨?_, ?_, ProcessKeyboardEvents_gLastFrame lib s keys⟩
    · simp only [Mouse_Position_Callback, callProcessMouseMovement]
      split_ifs <;> rfl
    · rw [scroll_frame]
  · intro s s' t keys h
    obtain ⟨h1, h2⟩ := PrepareSceneView_timing lib s s' t keys h
    exact ⟨h1, h2, PrepareSceneView_ok lib s s' t keys h⟩
  · intro s s' t keys h0 h
    rw [(PrepareSceneView_timing lib s s' t keys h).1, h0]
    ring
  · intro s s₁ s₂ t₁ t₂ keys₁ keys₂ h1 h2
    rw [(PrepareSceneView_timing lib s₁ s₂ t₂ keys₂ h2).1,
      (PrepareSceneView_timing lib s s₁ t₁ keys₁ h1).2]

/-- C11 as amended, at a concrete input: the first frame after construction, at
clock reading `100` with no key down, has delta time `100 - 0`. -/
theorem C11_delta_time_is_reading_minus_last_frame_witness :
    ∃ s' : ViewState,
      PrepareSceneView CameraLib.still (ViewManager Camera.zero (some [])) 100 Keys.none
        = Except.ok s' ∧
      s'.gDeltaTime = 100 - (ViewManager Camera.zero (some [])).gLastFrame ∧
      s'.gLastFrame = 100 :=
  ⟨_, PrepareSceneView_some CameraLib.still (ViewManager Camera.zero (some [])) 100
        Keys.none [] rfl,
   ((C11_delta_time_is_reading_minus_last_frame CameraLib.still).2.2.1 _ _ 100 Keys.none
      (PrepareSceneView_some CameraLib.still (ViewManager Camera.zero (some [])) 100
        Keys.none [] rfl)).1,
   ((C11_delta_time_is_reading_minus_last_frame CameraLib.still).2.2.1 _ _ 100 Keys.none
      (PrepareSceneView_some CameraLib.still (ViewManager Camera.zero (some [])) 100
        Keys.none [] rfl)).2.1⟩

/-- C12. The pose the constructor gives the camera has position `(0, 12, 25)`,
zoom `80` and the unit up vector `(0, 1, 0)`, but its front is `(0, -0.2, -2)`,
of squared length `4.04`, not `1`. -/
theorem C12_default_front_is_not_unit (newCamera : Camera)
    (pShaderManager : Option ShaderManager) :
    (ViewManager newCamera pShaderManager).g_pCamera.Position = ⟨0, 12, 25⟩ ∧
    (ViewManager newCamera pShaderManager).g_pCamera.Zoom = 80 ∧
    (ViewManager newCamera pShaderManager).g_pCamera.Up = ⟨0, 1, 0⟩ ∧
    lengthSquared (ViewManager newCamera pShaderManager).g_pCamera.Up = 1 ∧
    (ViewManager newCamera pShaderManager).g_pCamera.Front = ⟨0, -0.2, -2⟩ ∧
    lengthSquared (ViewManager newCamera pShaderManager).g_pCamera.Front = 4.04 ∧
    lengthSquared (ViewManager newCamera pShaderManager).g_pCamera.Front ≠ 1 := by
  refine ⟨?_, ?_, ?_, ?_, ?_, ?_, ?_⟩ <;> norm_num [ViewManager, lengthSquared]

end ViewManager
